import Mathlib

/-
Verification of the site-configuration artifact of the astro-erudite blog
repository (src/src/consts.ts) and the front-matter of its single MDX
article (src/src/content/blog/hackers-guide-to-llm-rag-part1/index.mdx).

The TypeScript module declares three compiled-in constants: `SITE` (site
metadata), `NAV_LINKS` (primary navigation menu) and `SOCIAL_LINKS`
(social-links menu). We embed them literally below and prove the schema
properties the specification states about them.
-/

namespace Erudite

/-- The `Site` record type of src/src/consts.ts.  The two counters are
integer literals in the source (2 and 3), so they are embedded as `Nat`. -/
structure Site where
  TITLE : String
  DESCRIPTION : String
  EMAIL : String
  NUM_POSTS_ON_HOMEPAGE : Nat
  POSTS_PER_PAGE : Nat
  SITEURL : String
deriving DecidableEq, Repr

/-- The `Link` record type of src/src/consts.ts: a menu entry with a
target (`href`) and a display text (`label`). -/
structure Link where
  href : String
  label : String
deriving DecidableEq, Repr

/-- The `SITE` constant of src/src/consts.ts.  (The TITLE literal in the
source contains an unescaped quote; the intended value is embedded.) -/
def SITE : Site :=
  { TITLE := "strf0x\x27s blog"
    DESCRIPTION := "blog on my cyber to ai journey"
    EMAIL := "str.f0x@protonmail.com"
    NUM_POSTS_ON_HOMEPAGE := 2
    POSTS_PER_PAGE := 3
    SITEURL := "https://voluble-figolla-716fdd.netlify.app/blog/" }

/-- The `NAV_LINKS` constant of src/src/consts.ts (the primary navigation
menu, in display order). -/
def NAV_LINKS : List Link :=
  [ { href := "/blog", label := "blog" }
  , { href := "/authors", label := "authors" }
  , { href := "/about", label := "about" }
  , { href := "/tags", label := "tags" } ]

/-- The `SOCIAL_LINKS` constant of src/src/consts.ts (the social-links
menu, in display order). -/
def SOCIAL_LINKS : List Link :=
  [ { href := "https://github.com/strf0x1", label := "GitHub" }
  , { href := "https://twitter.com/strf0x1", label := "Twitter" }
  , { href := "str.f0x@protonmail.com", label := "Email" }
  , { href := "/rss.xml", label := "RSS" } ]

/-! URL-shape predicates, following RFC 3986's grammar for a scheme:
an absolute URL starts with `ALPHA *( ALPHA / DIGIT / "+" / "-" / "." ) ":"`;
a root-relative path starts with a slash. -/

/-- A character allowed in a URI scheme after its first letter. -/
def isSchemeChar (c : Char) : Bool :=
  c.isAlphanum || c = '+' || c = '-' || c = '.'

/-- The characters standing before the first colon, `none` when the string
has no colon. -/
def beforeColon : List Char → Option (List Char)
  | [] => none
  | c :: rest =>
      if c = ':' then some [] else (beforeColon rest).map (fun l => c :: l)

/-- The characters standing after the first colon (empty when the string
has no colon). -/
def afterColon : List Char → List Char
  | [] => []
  | c :: rest => if c = ':' then rest else afterColon rest

/-- The URI scheme of a string, when it has one: the segment before the
first colon, provided it is a letter followed by scheme characters. -/
def schemeOf (s : String) : Option String :=
  match beforeColon s.data with
  | none => none
  | some [] => none
  | some (c :: cs) =>
      if c.isAlpha && cs.all isSchemeChar then some (String.mk (c :: cs))
      else none

/-- A string is an absolute URL when it carries a URI scheme. -/
def isAbsoluteUrl (s : String) : Bool :=
  (schemeOf s).isSome

/-- A string is a root-relative path when it starts with a slash. -/
def isRootRelativePath (s : String) : Bool :=
  match s.data with
  | [] => false
  | c :: _ => c = '/'

/-- After the scheme's colon the URL has a `//`-introduced authority with a
non-empty host. -/
def hasAuthority (s : String) : Bool :=
  match afterColon s.data with
  | c1 :: c2 :: rest =>
      c1 = '/' && c2 = '/' && !(rest.takeWhile (fun c => c ≠ '/')).isEmpty
  | _ => false

/-- A link target is well formed when it is a root-relative path or an
absolute URL. -/
def linkTargetWellFormed (l : Link) : Bool :=
  isRootRelativePath l.href || isAbsoluteUrl l.href

/-- A bare email address: a single `@` with non-empty sides, no colon and
no slash (hence no scheme and not a root-relative path). -/
def isBareEmailAddress (s : String) : Bool :=
  let parts := fun c => c = '@'
  !(s.data.takeWhile (fun c => !parts c)).isEmpty &&
  (match s.data.dropWhile (fun c => !parts c) with
   | [] => false
   | _ :: rest => !rest.isEmpty && rest.all (fun c => !parts c)) &&
  s.data.all (fun c => c ≠ ':' && c ≠ '/')

/-- A non-empty string, decided on its character list. -/
def strNonEmpty (s : String) : Bool :=
  !s.data.isEmpty

/-- A relative file path: non-empty, no URI scheme, not starting with a
slash. -/
def isRelativeFilePath (s : String) : Bool :=
  strNonEmpty s && !isAbsoluteUrl s && !isRootRelativePath s

/-! Front matter of the MDX articles.  A front-matter block is an ordered
list of key/value pairs; a value is a string scalar, a date scalar or a
sequence of strings. -/

/-- A front-matter value: string scalar, date scalar (year, month, day) or
sequence of strings. -/
inductive FmValue where
  | str (s : String)
  | date (y m d : Nat)
  | strList (l : List String)
deriving DecidableEq, Repr

/-- The front-matter block of
src/src/content/blog/hackers-guide-to-llm-rag-part1/index.mdx, embedded
key by key in source order. -/
def hackersGuidePart1 : List (String × FmValue) :=
  [ ("title", FmValue.str "A Hacker’s Guide to Local LLMs and RAG")
  , ("description", FmValue.str "Exploring the power of combining local language models with retrieval augmented generation for hackers.")
  , ("date", FmValue.date 2024 1 1)
  , ("tags", FmValue.strList ["LLM", "RAG", "Cybersecurity", "AI", "Machine Learning"])
  , ("image", FmValue.str "./1200x630.png")
  , ("authors", FmValue.strList ["strf0x"]) ]

/-- Every article document of the repository (the blog content directory
holds a single article). -/
def articles : List (List (String × FmValue)) :=
  [hackersGuidePart1]

/-- The value bound to a key in a front-matter block. -/
def fmLookup (k : String) : List (String × FmValue) → Option FmValue
  | [] => none
  | (k2, v) :: rest => if k2 = k then some v else fmLookup k rest

/-- The key is bound to a string scalar. -/
def fmHasStr (k : String) (fm : List (String × FmValue)) : Bool :=
  match fmLookup k fm with
  | some (FmValue.str _) => true
  | _ => false

/-- The key is bound to a calendar-valid date scalar. -/
def fmHasDate (k : String) (fm : List (String × FmValue)) : Bool :=
  match fmLookup k fm with
  | some (FmValue.date y m d) =>
      decide (1 ≤ y) && decide (1 ≤ m) && decide (m ≤ 12) &&
      decide (1 ≤ d) && decide (d ≤ 31)
  | _ => false

/-- The key is bound to a non-empty sequence of strings. -/
def fmHasNonEmptyStrList (k : String) (fm : List (String × FmValue)) : Bool :=
  match fmLookup k fm with
  | some (FmValue.strList l) => !l.isEmpty
  | _ => false

/-- The key is bound to a string scalar holding a relative file path. -/
def fmHasRelativePath (k : String) (fm : List (String × FmValue)) : Bool :=
  match fmLookup k fm with
  | some (FmValue.str s) => isRelativeFilePath s
  | _ => false

/-- The front-matter schema of section 6 of the specification: the six
required fields are present with the right types, and the tags and authors
sequences are non-empty. -/
def frontmatterValid (fm : List (String × FmValue)) : Bool :=
  fmHasStr "title" fm &&
  fmHasStr "description" fm &&
  fmHasDate "date" fm &&
  fmHasNonEmptyStrList "tags" fm &&
  fmHasRelativePath "image" fm &&
  fmHasNonEmptyStrList "authors" fm

/-! Pagination.  The renderer that chunks the article list into pages is
not part of this repository, so it is modelled from the specification. -/

/-- Fuel-driven worker for `paginate`: cuts pages of `n` elements off the
front of the list.  The fuel only bounds the recursion; `paginate` passes
enough of it for the whole list. -/
def paginateGo (n : Nat) : Nat → List α → List (List α)
  | 0, _ => []
  | _, [] => []
  | fuel + 1, x :: xs => (x :: xs.take (n - 1)) :: paginateGo n fuel (xs.drop (n - 1))

/-- Modelled from the spec: pagination is performed by the external
static-site renderer (absent from this repository); per section 8 item 6
it chunks the date-ordered article list into consecutive pages of
`postsPerPage` articles, the last page holding the remainder. -/
def paginate (n : Nat) (l : List α) : List (List α) :=
  if n = 0 then [] else paginateGo n l.length l

/-! The configuration provider.  The module exposes the three constants as
read-only values; a consumer is a sequence of read requests, and reading
never changes anything. -/

/-- The names the configuration provider exposes. -/
inductive ConfigName where
  | site
  | navLinks
  | socialLinks
deriving DecidableEq, Repr

/-- A configuration value: the metadata record or a menu. -/
inductive ConfigValue where
  | siteVal (s : Site)
  | linksVal (l : List Link)
deriving DecidableEq, Repr

/-- Reading one configuration name, as the module resolves it: the
constant table built at module initialization.  The provider exposes no
write operation, so this is the whole interface. -/
def readConfig : ConfigName → ConfigValue
  | ConfigName.site => ConfigValue.siteVal SITE
  | ConfigName.navLinks => ConfigValue.linksVal NAV_LINKS
  | ConfigName.socialLinks => ConfigValue.linksVal SOCIAL_LINKS

/-- Running a consumer process: a sequence of read requests, answered in
order.  No request mutates the table, so each answer comes from the same
constants. -/
def runReads (ops : List ConfigName) : List ConfigValue :=
  ops.map readConfig

/-- C1 as stated is false on the code: the Email entry of SOCIAL_LINKS has
target str.f0x@protonmail.com, a bare email address without a mailto
scheme, hence neither a root-relative path nor an absolute URL. -/
theorem c1_counterexample :
    Link.mk "str.f0x@protonmail.com" "Email" ∈ SOCIAL_LINKS ∧
    linkTargetWellFormed (Link.mk "str.f0x@protonmail.com" "Email") = false := by
  decide

/-- C1 amended: every target in NAV_LINKS and SOCIAL_LINKS is a
root-relative path or an absolute URL, except the Email entry of
SOCIAL_LINKS, whose target is a bare email address; that entry is the only
exception. -/
theorem c1_targets_wellformed_except_email :
    NAV_LINKS.all linkTargetWellFormed = true ∧
    (SOCIAL_LINKS.all fun l => linkTargetWellFormed l || isBareEmailAddress l.href) = true ∧
    (SOCIAL_LINKS.filter fun l => !linkTargetWellFormed l) =
      [Link.mk "str.f0x@protonmail.com" "Email"] := by
  decide

/-- C2: every entry of NAV_LINKS and SOCIAL_LINKS has a non-empty label
and a non-empty target string. -/
theorem c2_entries_nonempty :
    ((NAV_LINKS ++ SOCIAL_LINKS).all fun l => strNonEmpty l.label && strNonEmpty l.href) = true := by
  decide

/-- C3: the compiled counters NUM_POSTS_ON_HOMEPAGE and POSTS_PER_PAGE of
SITE are positive integers. -/
theorem c3_pagination_constants_positive :
    1 ≤ SITE.NUM_POSTS_ON_HOMEPAGE ∧ 1 ≤ SITE.POSTS_PER_PAGE := by
  decide

/-- C4: SITE.SITEURL is a syntactically valid absolute URL: it carries the
https scheme and a non-empty host authority. -/
theorem c4_canonical_url_absolute :
    isAbsoluteUrl SITE.SITEURL = true ∧
    schemeOf SITE.SITEURL = some "https" ∧
    hasAuthority SITE.SITEURL = true := by
  decide

/-- C5: every article document of the repository has front matter with all
six required fields of the right types, and non-empty tags and authors
sequences. -/
theorem c5_frontmatter_valid :
    articles.all frontmatterValid = true := by
  decide

/-- C6: with the compiled page size SITE.POSTS_PER_PAGE = 3, paginating
any date-ordered list of 7 articles yields pages of sizes [3, 3, 1], and
concatenating the pages restores the list, so the order is preserved. -/
theorem c6_pagination_seven {α : Type} (l : List α) (h : l.length = 7) :
    (paginate SITE.POSTS_PER_PAGE l).map List.length = [3, 3, 1] ∧
    (paginate SITE.POSTS_PER_PAGE l).flatten = l := by
  rcases l with _ | ⟨a, _ | ⟨b, _ | ⟨c, _ | ⟨d, _ | ⟨e, _ | ⟨f, _ | ⟨g, _ | ⟨x, t⟩⟩⟩⟩⟩⟩⟩⟩ <;>
    simp_all [paginate, paginateGo, SITE]

/-- C6 witness: the pagination contract checked on the concrete list
[1, 2, 3, 4, 5, 6, 7]. -/
theorem c6_pagination_seven_witness :
    (paginate SITE.POSTS_PER_PAGE [1, 2, 3, 4, 5, 6, 7]).map List.length = [3, 3, 1] ∧
    (paginate SITE.POSTS_PER_PAGE [1, 2, 3, 4, 5, 6, 7]).flatten = [1, 2, 3, 4, 5, 6, 7] :=
  c6_pagination_seven [1, 2, 3, 4, 5, 6, 7] (by decide)

/-- C7: the configuration provider is read-only, so any two reads of the
same name inside one process trace return identical values, wherever in
the trace they occur. -/
theorem c7_reads_identical (ops : List ConfigName) (i j : Nat)
    (h : ops[i]? = ops[j]?) :
    (runReads ops)[i]? = (runReads ops)[j]? := by
  simp [runReads, List.getElem?_map, h]

/-- C7 witness: in the trace [site, navLinks, site], the first and the
third read return the same value. -/
theorem c7_reads_identical_witness :
    (runReads [ConfigName.site, ConfigName.navLinks, ConfigName.site])[0]? =
    (runReads [ConfigName.site, ConfigName.navLinks, ConfigName.site])[2]? :=
  c7_reads_identical [ConfigName.site, ConfigName.navLinks, ConfigName.site] 0 2 (by decide)

/-- C8: both menus shipped in the repository are non-empty. -/
theorem c8_menus_nonempty :
    NAV_LINKS ≠ [] ∧ SOCIAL_LINKS ≠ [] := by
  decide

/-- C9: NAV_LINKS and SOCIAL_LINKS are exactly the two length-4 ordered
sequences listed in the claim, fixing the rendered menus completely. -/
theorem c9_menus_exact :
    NAV_LINKS =
      [ Link.mk "/blog" "blog", Link.mk "/authors" "authors"
      , Link.mk "/about" "about", Link.mk "/tags" "tags" ] ∧
    SOCIAL_LINKS =
      [ Link.mk "https://github.com/strf0x1" "GitHub"
      , Link.mk "https://twitter.com/strf0x1" "Twitter"
      , Link.mk "str.f0x@protonmail.com" "Email"
      , Link.mk "/rss.xml" "RSS" ] ∧
    NAV_LINKS.length = 4 ∧ SOCIAL_LINKS.length = 4 :=
  ⟨rfl, rfl, rfl, rfl⟩

/-- C10: within each menu the labels are pairwise distinct and the targets
are pairwise distinct. -/
theorem c10_menus_distinct :
    (NAV_LINKS.map Link.label).Nodup ∧ (NAV_LINKS.map Link.href).Nodup ∧
    (SOCIAL_LINKS.map Link.label).Nodup ∧ (SOCIAL_LINKS.map Link.href).Nodup := by
  decide

end Erudite
